import Mathlib

/-!
Shallow embedding of the pricing/margin core of the ExecutionEngine repository
(`backend/src/pricing_engine.cpp`, `backend/include/pricing_engine.h`),
together with theorems settling the specification claims about it.

Modelling conventions:
* C++ `double` values are modelled as real numbers (`ℝ`); `uint64_t` values as
  `ℕ`, with the wrap-around of unsigned arithmetic made explicit (`% 2 ^ 64`)
  where an accumulation can overflow.
* `std::chrono::system_clock::time_point` is modelled as an integer count of
  whole hours (`ℤ`); the engine state carries the current time `now` so that
  `getTimeToExpiry` is a pure function of the state.  The truncation of a
  duration to whole hours performed by `duration_cast` is absorbed into this
  choice of unit; no claim depends on sub-hour resolution.
* `std::map` lookups are modelled as functions into `Option`; the map of
  contracts is an association list so that iteration order is definable.
* Division in Lean's `ℝ` totalises `x / 0 = 0`; where a claim is about the
  (absence of a) guard on a zero denominator, a second definition tracks the
  zero-denominator case explicitly via `Option` (`none` standing for the
  non-finite IEEE result of the unguarded C++ division).
-/

noncomputable section

open scoped Real

/-- The option Greeks record (`struct OptionGreeks`). -/
structure OptionGreeks where
  delta : ℝ
  gamma : ℝ
  theta : ℝ
  vega : ℝ
  rho : ℝ
  deriving DecidableEq

/-- The Gauss error function, the mathematical function computed by
`std::erf`: `erf x = (2/√π) ∫ t in 0..x, exp (-t²)`. -/
def erf (x : ℝ) : ℝ := (2 / Real.sqrt Real.pi) * ∫ t in (0:ℝ)..x, Real.exp (-t ^ 2)

/-- Source: `PricingEngine::normalCDF` — `0.5 * (1.0 + erf(x / sqrt(2.0)))`. -/
def normalCDF (x : ℝ) : ℝ := 0.5 * (1 + erf (x / Real.sqrt 2))

/-- Source: `PricingEngine::normalPDF` — `(1/sqrt(2π)) * exp(-0.5*x*x)`. -/
def normalPDF (x : ℝ) : ℝ := (1 / Real.sqrt (2 * Real.pi)) * Real.exp (-0.5 * x * x)

/-- Source: `PricingEngine::blackScholes`.  Expired options (`T ≤ 0`) collapse
to intrinsic value; otherwise the closed-form Black-Scholes price. -/
def blackScholes (spot strike time_to_expiry risk_free_rate volatility : ℝ)
    (is_call : Bool) : ℝ :=
  if time_to_expiry ≤ 0 then
    if is_call then max 0 (spot - strike) else max 0 (strike - spot)
  else
    let d1 := (Real.log (spot / strike)
        + (risk_free_rate + 0.5 * volatility * volatility) * time_to_expiry)
      / (volatility * Real.sqrt time_to_expiry)
    let d2 := d1 - volatility * Real.sqrt time_to_expiry
    if is_call then
      spot * normalCDF d1
        - strike * Real.exp (-risk_free_rate * time_to_expiry) * normalCDF d2
    else
      strike * Real.exp (-risk_free_rate * time_to_expiry) * normalCDF (-d2)
        - spot * normalCDF (-d1)

/-- Source: `PricingEngine::calculateOptionFairValue` — dispatches to
`blackScholes` with `is_call = (option_type == "CE")`. -/
def calculateOptionFairValue (spot_price strike time_to_expiry risk_free_rate
    volatility : ℝ) (option_type : String) : ℝ :=
  blackScholes spot_price strike time_to_expiry risk_free_rate volatility
    (option_type == "CE")

/-- Source: `PricingEngine::calculateDelta`. -/
def calculateDelta (spot strike time_to_expiry risk_free_rate volatility : ℝ)
    (is_call : Bool) : ℝ :=
  if time_to_expiry ≤ 0 then 0
  else
    let d1 := (Real.log (spot / strike)
        + (risk_free_rate + 0.5 * volatility * volatility) * time_to_expiry)
      / (volatility * Real.sqrt time_to_expiry)
    if is_call then normalCDF d1 else normalCDF d1 - 1

/-- Source: `PricingEngine::calculateGamma`. -/
def calculateGamma (spot strike time_to_expiry risk_free_rate volatility : ℝ) : ℝ :=
  if time_to_expiry ≤ 0 then 0
  else
    let d1 := (Real.log (spot / strike)
        + (risk_free_rate + 0.5 * volatility * volatility) * time_to_expiry)
      / (volatility * Real.sqrt time_to_expiry)
    normalPDF d1 / (spot * volatility * Real.sqrt time_to_expiry)

/-- Source: `PricingEngine::calculateTheta` (per calendar day). -/
def calculateTheta (spot strike time_to_expiry risk_free_rate volatility : ℝ)
    (is_call : Bool) : ℝ :=
  if time_to_expiry ≤ 0 then 0
  else
    let d1 := (Real.log (spot / strike)
        + (risk_free_rate + 0.5 * volatility * volatility) * time_to_expiry)
      / (volatility * Real.sqrt time_to_expiry)
    let d2 := d1 - volatility * Real.sqrt time_to_expiry
    let term1 := -(spot * normalPDF d1 * volatility) / (2 * Real.sqrt time_to_expiry)
    let term2 := risk_free_rate * strike * Real.exp (-risk_free_rate * time_to_expiry)
    if is_call then (term1 - term2 * normalCDF d2) / 365
    else (term1 + term2 * normalCDF (-d2)) / 365

/-- Source: `PricingEngine::calculateVega` (per 1 percentage point of volatility). -/
def calculateVega (spot strike time_to_expiry risk_free_rate volatility : ℝ) : ℝ :=
  if time_to_expiry ≤ 0 then 0
  else
    let d1 := (Real.log (spot / strike)
        + (risk_free_rate + 0.5 * volatility * volatility) * time_to_expiry)
      / (volatility * Real.sqrt time_to_expiry)
    spot * normalPDF d1 * Real.sqrt time_to_expiry / 100

/-- Source: `PricingEngine::calculateGreeks` — assembles the four closed-form
Greeks; `rho` is hard-coded to `0`. -/
def calculateGreeks (spot_price strike time_to_expiry risk_free_rate
    volatility : ℝ) (option_type : String) : OptionGreeks :=
  let is_call := option_type == "CE"
  { delta := calculateDelta spot_price strike time_to_expiry risk_free_rate volatility is_call
    gamma := calculateGamma spot_price strike time_to_expiry risk_free_rate volatility
    theta := calculateTheta spot_price strike time_to_expiry risk_free_rate volatility is_call
    vega := calculateVega spot_price strike time_to_expiry risk_free_rate volatility
    rho := 0 }

/-- One market quote (`struct MarketData`).  `last_updated` (a timestamp never
read by the functions under study) is omitted. -/
structure MarketData where
  symbol : String
  price : ℝ
  bid : ℝ
  ask : ℝ
  volume : ℕ
  open_interest : ℕ
  change : ℝ
  change_percent : ℝ
  exchange : String

/-- Contract metadata (`struct ContractDetails`); `expiry` is a time point in
whole hours. -/
structure ContractDetails where
  symbol : String
  underlying : String
  instrument_type : String
  strike : ℝ
  expiry : ℤ
  option_type : String
  lot_size : ℝ
  tick_size : ℝ

/-- One comparison row (`struct PriceComparison`).  The two C++ `bool` fields
are modelled as propositions because they are computed from real-number
comparisons. -/
structure PriceComparison where
  symbol : String
  instrument_type : String
  nse_price : ℝ
  bse_price : ℝ
  fair_value : ℝ
  percentage_diff : ℝ
  is_recommended : Prop
  liquidity_score : ℝ
  volume_30day : ℕ
  current_volume : ℕ
  open_interest : ℕ
  exchange : String
  expiry_date : ℤ
  bid_ask_spread : ℝ
  impact_cost : ℝ
  volume_compliant : Prop

/-- The mutable state of `class PricingEngine`: the two per-exchange quote
maps, the contract registry (an association list keyed by symbol), the
per-symbol volume history, the two configuration scalars, the implied
volatility table (`operator[]` yields `0.0` for absent keys, so it is a total
function) and the current wall-clock time in whole hours. -/
structure PricingEngine where
  nse_market_data : String → Option MarketData
  bse_market_data : String → Option MarketData
  contracts : List (String × ContractDetails)
  historical_volumes : String → Option (List ℕ)
  risk_free_rate : ℝ
  volume_threshold : ℝ
  implied_volatilities : String → ℝ
  now : ℤ

/-- The engine state produced by the `PricingEngine` constructor: empty
stores, 6% risk-free rate, 5% volume threshold and the three seeded implied
volatilities. -/
def initEngine (now : ℤ) : PricingEngine where
  nse_market_data := fun _ => none
  bse_market_data := fun _ => none
  contracts := []
  historical_volumes := fun _ => none
  risk_free_rate := 0.06
  volume_threshold := 0.05
  implied_volatilities := fun u =>
    if u = "NIFTY" then 0.15
    else if u = "BANKNIFTY" then 0.18
    else if u = "FINNIFTY" then 0.16
    else 0
  now := now

/-- The zero-valued sentinel quote returned by `getMarketData` on a miss. -/
def emptyMarketData (symbol exchange : String) : MarketData where
  symbol := symbol
  price := 0
  bid := 0
  ask := 0
  volume := 0
  open_interest := 0
  change := 0
  change_percent := 0
  exchange := exchange

/-- Source: `PricingEngine::getMarketData` — the stored quote for the
(symbol, exchange) pair, or the zero sentinel when absent. -/
def getMarketData (e : PricingEngine) (symbol exchange : String) : MarketData :=
  if exchange = "NSE" then
    match e.nse_market_data symbol with
    | some md => md
    | none => emptyMarketData symbol exchange
  else if exchange = "BSE" then
    match e.bse_market_data symbol with
    | some md => md
    | none => emptyMarketData symbol exchange
  else emptyMarketData symbol exchange

/-- Source: `PricingEngine::getTimeToExpiry` — `max(0, hours/24/365)` years. -/
def getTimeToExpiry (e : PricingEngine) (expiry : ℤ) : ℝ :=
  max 0 (((expiry - e.now : ℤ) : ℝ) / 24 / 365)

/-- Source: `PricingEngine::getContracts` — every registered contract whose
underlying matches. -/
def getContracts (e : PricingEngine) (underlying : String) : List ContractDetails :=
  (e.contracts.filter fun p => p.2.underlying == underlying).map fun p => p.2

/-- The accumulation performed by `std::accumulate(volumes.begin(),
volumes.end(), 0ULL)`: every addition is carried out in `uint64_t`, hence
wraps modulo `2 ^ 64`. -/
def sumWrap (l : List ℕ) : ℕ := l.foldl (fun a v => (a + v) % 2 ^ 64) 0

/-- Source: `PricingEngine::get30DayAverageVolume` — `0` when the symbol has
no history or the history is empty, otherwise the `uint64_t` quotient of the
wrapped sum by the sample count. -/
def get30DayAverageVolume (e : PricingEngine) (symbol : String) : ℕ :=
  match e.historical_volumes symbol with
  | none => 0
  | some volumes => if volumes.isEmpty then 0 else sumWrap volumes / volumes.length

/-- The vector manipulation inside `PricingEngine::updateHistoricalVolume`:
append, then erase the front element once the length exceeds 30. -/
def pushVolume (volumes : List ℕ) (volume : ℕ) : List ℕ :=
  let volumes' := volumes ++ [volume]
  if volumes'.length > 30 then volumes'.tail else volumes'

/-- Source: `PricingEngine::updateHistoricalVolume` — `operator[]` default
constructs an empty history for a fresh symbol, then `pushVolume` runs on it. -/
def updateHistoricalVolume (e : PricingEngine) (symbol : String) (volume : ℕ) :
    PricingEngine :=
  { e with
    historical_volumes := fun s =>
      if s = symbol then some (pushVolume ((e.historical_volumes s).getD []) volume)
      else e.historical_volumes s }

/-- Source: `PricingEngine::calculateLiquidityScore`.  Note the early return:
a zero 30-day average yields score `0`. -/
def calculateLiquidityScore (data : MarketData) (volume_30day : ℕ) : ℝ :=
  if volume_30day = 0 then 0
  else
    let volume_ratio : ℝ := (data.volume : ℝ) / (volume_30day : ℝ)
    let oi_factor : ℝ := min 1 ((data.open_interest : ℝ) / 1000000)
    let spread_factor : ℝ := 1 / (1 + (data.ask - data.bid) / data.price * 100)
    volume_ratio * 0.4 + oi_factor * 0.3 + spread_factor * 0.3

/-- Source: `PricingEngine::checkVolumeConstraints` — quantity at most the
30-day average volume scaled by the configured threshold. -/
def checkVolumeConstraints (e : PricingEngine) (symbol : String) (quantity : ℝ) :
    Prop :=
  quantity ≤ (get30DayAverageVolume e symbol : ℝ) * e.volume_threshold

/-- Source: `PricingEngine::calculateImpactCost` —
`(quantity / volume) * (ask - bid) / price * 100`, with Lean's total division
(`x / 0 = 0`). -/
def calculateImpactCost (data : MarketData) (quantity : ℝ) : ℝ :=
  let volume_ratio := quantity / (data.volume : ℝ)
  volume_ratio * (data.ask - data.bid) / data.price * 100

/-- Division with a zero denominator tracked: `none` models the non-finite
(±∞/NaN) value an unguarded IEEE-754 double division by zero produces. -/
def divTracked (a b : ℝ) : Option ℝ := if b = 0 then none else some (a / b)

/-- The same expression as `calculateImpactCost`, with each division routed
through `divTracked`, so that the absence of a zero-volume guard in the source
is observable as a `none` result. -/
def calculateImpactCostTracked (data : MarketData) (quantity : ℝ) : Option ℝ := do
  let volume_ratio ← divTracked quantity (data.volume : ℝ)
  let t ← divTracked (volume_ratio * (data.ask - data.bid)) data.price
  pure (t * 100)

/-- Source: `PricingEngine::calculateFairValue` — volume-weighted two-venue
average for cash, cost-of-carry for futures, Black-Scholes for options, `0`
for any other instrument type. -/
def calculateFairValue (e : PricingEngine) (contract : ContractDetails) : ℝ :=
  if contract.instrument_type = "CASH" then
    let nse_data := getMarketData e contract.symbol "NSE"
    let bse_data := getMarketData e contract.symbol "BSE"
    let total_volume : ℝ := (nse_data.volume : ℝ) + (bse_data.volume : ℝ)
    if total_volume > 0 then
      (nse_data.price * (nse_data.volume : ℝ) + bse_data.price * (bse_data.volume : ℝ))
        / total_volume
    else (nse_data.price + bse_data.price) / 2
  else if contract.instrument_type = "FUTURE" then
    let spot_data := getMarketData e contract.underlying "NSE"
    let time_to_expiry := getTimeToExpiry e contract.expiry
    spot_data.price * Real.exp (e.risk_free_rate * time_to_expiry)
  else if contract.instrument_type = "OPTION" then
    let spot_data := getMarketData e contract.underlying "NSE"
    let time_to_expiry := getTimeToExpiry e contract.expiry
    let volatility := e.implied_volatilities contract.underlying
    calculateOptionFairValue spot_data.price contract.strike time_to_expiry
      e.risk_free_rate volatility contract.option_type
  else 0

/-- The body of the per-contract loop in `PricingEngine::compareContracts`
(lines 31-79 of `pricing_engine.cpp`): both venues' quotes are fetched, the
venue whose price deviation from fair value is strictly smaller is selected
(`if (nse_diff < bse_diff)`, so the BSE branch also takes exact ties), and
every selected-venue metric is computed from that venue's quote. -/
def processContract (e : PricingEngine) (contract : ContractDetails)
    (target_quantity : ℝ) : PriceComparison :=
  let nse_data := getMarketData e contract.symbol "NSE"
  let bse_data := getMarketData e contract.symbol "BSE"
  let fair_value := calculateFairValue e contract
  let nse_diff := |nse_data.price - fair_value| / fair_value * 100
  let bse_diff := |bse_data.price - fair_value| / fair_value * 100
  let selected_data := if nse_diff < bse_diff then nse_data else bse_data
  let exchange := if nse_diff < bse_diff then "NSE" else "BSE"
  let percentage_diff := (selected_data.price - fair_value) / fair_value * 100
  let avg := get30DayAverageVolume e contract.symbol
  let liquidity_score := calculateLiquidityScore selected_data avg
  let volume_compliant := checkVolumeConstraints e contract.symbol target_quantity
  let bid_ask_spread := (selected_data.ask - selected_data.bid) / selected_data.price * 100
  let impact_cost := calculateImpactCost selected_data target_quantity
  { symbol := contract.symbol
    instrument_type := contract.instrument_type
    nse_price := nse_data.price
    bse_price := bse_data.price
    fair_value := fair_value
    percentage_diff := percentage_diff
    is_recommended := |percentage_diff| < 0.5 ∧ liquidity_score > 0.6
      ∧ volume_compliant ∧ bid_ask_spread < 1.0
    liquidity_score := liquidity_score
    volume_30day := avg
    current_volume := selected_data.volume
    open_interest := selected_data.open_interest
    exchange := exchange
    expiry_date := contract.expiry
    bid_ask_spread := bid_ask_spread
    impact_cost := impact_cost
    volume_compliant := volume_compliant }

/-- Source: `PricingEngine::compareContracts` — one `PriceComparison` per
contract of the underlying, sorted by ascending `|percentage_diff|`
(`std::sort` modelled by `mergeSort`; the source comparator defines the same
ordering up to the placement of equivalent elements, which no claim fixes). -/
def compareContracts (e : PricingEngine) (underlying : String)
    (target_quantity : ℝ) : List PriceComparison :=
  ((getContracts e underlying).map fun ct => processContract e ct target_quantity).mergeSort
    fun a b => decide (|a.percentage_diff| ≤ |b.percentage_diff|)

/-- An engine state with only the volume history populated; used as a
concrete input for the volume-related claims. -/
def volEngine (h : String → Option (List ℕ)) : PricingEngine where
  nse_market_data := fun _ => none
  bse_market_data := fun _ => none
  contracts := []
  historical_volumes := h
  risk_free_rate := 0
  volume_threshold := 0.05
  implied_volatilities := fun _ => 0
  now := 0

/-- A quote with a given venue and price and no depth; used for the
tie-breaking witness. -/
def tieQuote (ex : String) (p : ℝ) : MarketData where
  symbol := "ABC"
  price := p
  bid := 0
  ask := 0
  volume := 0
  open_interest := 0
  change := 0
  change_percent := 0
  exchange := ex

/-- A cash contract for the tie-breaking witness. -/
def tieContract : ContractDetails where
  symbol := "ABC"
  underlying := "AB"
  instrument_type := "CASH"
  strike := 0
  expiry := 0
  option_type := ""
  lot_size := 0
  tick_size := 0

/-- An engine whose single cash contract is quoted 100 on NSE and 104 on BSE
with zero volume on both venues, so fair value is the simple average 102 and
the two venues are exactly equidistant from it. -/
def tieEngine : PricingEngine where
  nse_market_data := fun s => if s = "ABC" then some (tieQuote "NSE" 100) else none
  bse_market_data := fun s => if s = "ABC" then some (tieQuote "BSE" 104) else none
  contracts := [("ABC", tieContract)]
  historical_volumes := fun _ => none
  risk_free_rate := 0.06
  volume_threshold := 0.05
  implied_volatilities := fun _ => 0
  now := 0

/-- NSE quote for the strict-selection witness: price 100, all volume. -/
def closerQuoteNSE : MarketData where
  symbol := "AB"
  price := 100
  bid := 99
  ask := 101
  volume := 10
  open_interest := 1000
  change := 0
  change_percent := 0
  exchange := "NSE"

/-- BSE quote for the strict-selection witness: price 102, zero volume. -/
def closerQuoteBSE : MarketData where
  symbol := "AB"
  price := 102
  bid := 101
  ask := 103
  volume := 0
  open_interest := 500
  change := 0
  change_percent := 0
  exchange := "BSE"

/-- A cash contract for the strict-selection witness. -/
def closerContract : ContractDetails where
  symbol := "AB"
  underlying := "U"
  instrument_type := "CASH"
  strike := 0
  expiry := 0
  option_type := ""
  lot_size := 0
  tick_size := 0

/-- An engine where the volume-weighted cash fair value is 100, making the
NSE quote (100) strictly closer to fair value than the BSE quote (102). -/
def closerEngine : PricingEngine where
  nse_market_data := fun s => if s = "AB" then some closerQuoteNSE else none
  bse_market_data := fun s => if s = "AB" then some closerQuoteBSE else none
  contracts := [("AB", closerContract)]
  historical_volumes := fun _ => none
  risk_free_rate := 0.06
  volume_threshold := 0.05
  implied_volatilities := fun _ => 0
  now := 0

/-- A quote used in the zero-fair-value counterexample. -/
def zeroFvQuote (ex : String) (p : ℝ) : MarketData where
  symbol := "ZZ"
  price := p
  bid := 0
  ask := 0
  volume := 0
  open_interest := 0
  change := 0
  change_percent := 0
  exchange := ex

/-- A contract of an instrument type the fair-value calculator does not know,
so its fair value is the fall-through `0`. -/
def zeroFvContract : ContractDetails where
  symbol := "ZZ"
  underlying := "Z"
  instrument_type := "EQ"
  strike := 0
  expiry := 0
  option_type := ""
  lot_size := 0
  tick_size := 0

/-- An engine whose single contract has fair value 0 while being quoted 5 on
NSE and 10 on BSE. -/
def zeroFvEngine : PricingEngine where
  nse_market_data := fun s => if s = "ZZ" then some (zeroFvQuote "NSE" 5) else none
  bse_market_data := fun s => if s = "ZZ" then some (zeroFvQuote "BSE" 10) else none
  contracts := [("ZZ", zeroFvContract)]
  historical_volumes := fun _ => none
  risk_free_rate := 0
  volume_threshold := 0.05
  implied_volatilities := fun _ => 0
  now := 0

/-- A sample quote matching the spec's liquidity example: volume 5000,
OI 500000, price 100, bid 99, ask 101. -/
def sampleQuote : MarketData where
  symbol := "NIFTY"
  price := 100
  bid := 99
  ask := 101
  volume := 5000
  open_interest := 500000
  change := 0
  change_percent := 0
  exchange := "NSE"

/-- The error function is odd: substituting `t ↦ -t` in the defining integral. -/
theorem erf_neg (x : ℝ) : erf (-x) = -erf x := by
  unfold erf
  have h0 := intervalIntegral.integral_comp_neg (a := (0:ℝ)) (b := x)
    (fun t => Real.exp (-t ^ 2))
  simp only [neg_sq, neg_zero] at h0
  have h2 : (∫ t in (0:ℝ)..(-x), Real.exp (-t ^ 2))
      = -∫ t in (0:ℝ)..x, Real.exp (-t ^ 2) := by
    rw [intervalIntegral.integral_symm, h0]
  rw [h2]
  ring

/-- Reflection identity for the modelled normal CDF: `Φ x + Φ (-x) = 1`. -/
theorem normalCDF_add_normalCDF_neg (x : ℝ) : normalCDF x + normalCDF (-x) = 1 := by
  unfold normalCDF
  rw [neg_div, erf_neg]
  ring

/-- C1.  With time-to-expiry `T ≤ 0`, `blackScholes` (hence
`calculateOptionFairValue`) returns the intrinsic value — `max 0 (S - K)` for a
call, `max 0 (K - S)` for a put — and `calculateGreeks` returns the all-zero
Greeks record. -/
theorem blackScholes_intrinsic_greeks_zero_of_expired
    (S K T r σ : ℝ) (c : Bool) (ty : String) (hT : T ≤ 0) :
    blackScholes S K T r σ c = (if c then max 0 (S - K) else max 0 (K - S)) ∧
    calculateOptionFairValue S K T r σ ty
      = (if ty == "CE" then max 0 (S - K) else max 0 (K - S)) ∧
    calculateGreeks S K T r σ ty
      = { delta := 0, gamma := 0, theta := 0, vega := 0, rho := 0 } := by
  refine ⟨?_, ?_, ?_⟩ <;>
    simp [blackScholes, calculateOptionFairValue, calculateGreeks, calculateDelta,
      calculateGamma, calculateTheta, calculateVega, if_pos hT]

/-- Witness for C1 at the concrete expired input `S = 5, K = 3, T = 0`. -/
theorem blackScholes_intrinsic_greeks_zero_of_expired_witness :
    blackScholes 5 3 0 0.06 0.15 true = (if true then max 0 ((5:ℝ) - 3) else max 0 (3 - 5)) ∧
    calculateOptionFairValue 5 3 0 0.06 0.15 "CE"
      = (if "CE" == "CE" then max 0 ((5:ℝ) - 3) else max 0 (3 - 5)) ∧
    calculateGreeks 5 3 0 0.06 0.15 "CE"
      = { delta := 0, gamma := 0, theta := 0, vega := 0, rho := 0 } :=
  blackScholes_intrinsic_greeks_zero_of_expired 5 3 0 0.06 0.15 true "CE" le_rfl

/-- C6.  Put-call parity, exact over real arithmetic: for `T > 0` (and positive
spot, strike and volatility as in the claim) the call and put prices returned
by `blackScholes` satisfy `Call - Put = S - K·exp (-r·T)`. -/
theorem blackScholes_put_call_parity
    (S K T r σ : ℝ) (hS : 0 < S) (hK : 0 < K) (hT : 0 < T) (hσ : 0 < σ) :
    blackScholes S K T r σ true - blackScholes S K T r σ false
      = S - K * Real.exp (-r * T) := by
  unfold blackScholes
  simp only [if_neg (not_le.mpr hT), if_true, Bool.false_eq_true, if_false]
  set d1 := (Real.log (S / K) + (r + 0.5 * σ * σ) * T) / (σ * Real.sqrt T) with hd1
  set d2 := d1 - σ * Real.sqrt T with hd2
  have h1 := normalCDF_add_normalCDF_neg d1
  have h2 := normalCDF_add_normalCDF_neg d2
  linear_combination S * h1 - K * Real.exp (-r * T) * h2

/-- Witness for C6 at the concrete input `S = 100, K = 90, T = 1, r = 0.06, σ = 0.15`. -/
theorem blackScholes_put_call_parity_witness :
    blackScholes 100 90 1 0.06 0.15 true - blackScholes 100 90 1 0.06 0.15 false
      = 100 - 90 * Real.exp (-0.06 * 1) :=
  blackScholes_put_call_parity 100 90 1 0.06 0.15 (by norm_num) (by norm_num)
    (by norm_num) (by norm_num)

theorem pushVolume_length_le (l : List ℕ) (v : ℕ) (h : l.length ≤ 30) :
    (pushVolume l v).length ≤ 30 := by
  simp only [pushVolume]
  split_ifs with h1 <;>
    simp_all [List.length_tail, List.length_append]

theorem pushVolume_full (l : List ℕ) (v : ℕ) (h : l.length = 30) :
    pushVolume l v = l.tail ++ [v] := by
  cases l with
  | nil => simp at h
  | cons a t =>
    simp only [pushVolume, List.cons_append, List.length_cons, List.length_append,
      List.length_singleton, List.tail_cons]
    rw [if_pos]
    simp at h
    omega

theorem foldl_pushVolume_of_le (vs : List ℕ) (h : vs.length ≤ 30) :
    List.foldl pushVolume [] vs = vs := by
  induction vs using List.reverseRecOn with
  | nil => rfl
  | append_singleton ys y ih =>
    rw [List.foldl_append]
    simp only [List.foldl_cons, List.foldl_nil]
    rw [ih (by simp at h; omega)]
    simp only [pushVolume]
    rw [if_neg]
    simp at h ⊢
    omega

theorem foldl_pushVolume_31 (vs : List ℕ) (h : vs.length = 31) :
    List.foldl pushVolume [] vs = vs.tail := by
  rcases List.eq_nil_or_concat vs with rfl | ⟨ys, y, rfl⟩
  · simp at h
  · simp only [List.concat_eq_append] at h ⊢
    rw [List.foldl_append]
    simp only [List.foldl_cons, List.foldl_nil]
    have hys : ys.length = 30 := by simp at h; omega
    rw [foldl_pushVolume_of_le ys (by omega), pushVolume_full ys y hys]
    cases ys with
    | nil => simp at hys
    | cons a t => simp

/-- C7.  The per-symbol volume history stays at length at most 30 across any
`updateHistoricalVolume` call, a full history evicts exactly its oldest entry
(FIFO), and 31 sequential appends starting from an empty history retain
exactly the last 30 samples. -/
theorem volume_history_fifo_bounded :
    (∀ (e : PricingEngine) (sym s : String) (v : ℕ),
        ((e.historical_volumes s).getD []).length ≤ 30 →
        (((updateHistoricalVolume e sym v).historical_volumes s).getD []).length ≤ 30)
  ∧ (∀ (l : List ℕ) (v : ℕ), l.length = 30 → pushVolume l v = l.tail ++ [v])
  ∧ (∀ vs : List ℕ, vs.length = 31 → List.foldl pushVolume [] vs = vs.tail) := by
  refine ⟨?_, pushVolume_full, foldl_pushVolume_31⟩
  intro e sym s v h
  simp only [updateHistoricalVolume]
  by_cases hs : s = sym
  · subst hs
    simp only [if_pos rfl, Option.getD_some]
    exact pushVolume_length_le _ _ h
  · simp only [if_neg hs]
    exact h

/-- Witness for C7: a fresh symbol's history after one append, one eviction
step on a full 30-entry history, and 31 sequential appends. -/
theorem volume_history_fifo_bounded_witness :
    (((updateHistoricalVolume (initEngine 0) "NIFTY" 7).historical_volumes "NIFTY").getD []).length ≤ 30
  ∧ pushVolume (List.replicate 30 5) 7 = (List.replicate 30 5).tail ++ [7]
  ∧ List.foldl pushVolume [] (List.range 31) = (List.range 31).tail :=
  ⟨volume_history_fifo_bounded.1 (initEngine 0) "NIFTY" "NIFTY" 7 (by simp [initEngine]),
   volume_history_fifo_bounded.2.1 (List.replicate 30 5) 7 (by simp),
   volume_history_fifo_bounded.2.2 (List.range 31) (by simp)⟩

theorem foldl_addWrap (l : List ℕ) : ∀ a : ℕ,
    List.foldl (fun x v => (x + v) % 2 ^ 64) (a % 2 ^ 64) l = (a + l.sum) % 2 ^ 64 := by
  induction l with
  | nil => intro a; simp
  | cons v t ih =>
    intro a
    simp only [List.foldl_cons, List.sum_cons]
    rw [Nat.mod_add_mod, ih (a + v), Nat.add_assoc]

theorem sumWrap_eq (l : List ℕ) : sumWrap l = l.sum % 2 ^ 64 := by
  simpa [sumWrap] using foldl_addWrap l 0

/-- C8 (amended).  `get30DayAverageVolume` returns `0` when the symbol has no
history or an empty one, and otherwise the integer quotient of the `uint64_t`
wrapped sum (`sum mod 2^64`) by the sample count. -/
theorem get30DayAverageVolume_wrapped_mean (e : PricingEngine) (sym : String) :
    ((e.historical_volumes sym = none ∨ e.historical_volumes sym = some []) →
       get30DayAverageVolume e sym = 0)
  ∧ (∀ l : List ℕ, e.historical_volumes sym = some l → l ≠ [] →
       get30DayAverageVolume e sym = (l.sum % 2 ^ 64) / l.length) := by
  constructor
  · rintro (h | h) <;> simp [get30DayAverageVolume, h]
  · intro l hl hne
    simp [get30DayAverageVolume, hl, hne, sumWrap_eq]

/-- Witness for C8 on the concrete history `[1, 2, 3]`. -/
theorem get30DayAverageVolume_wrapped_mean_witness :
    get30DayAverageVolume (volEngine fun s => if s = "X" then some [1, 2, 3] else none) "X"
      = (([1, 2, 3] : List ℕ).sum % 2 ^ 64) / ([1, 2, 3] : List ℕ).length :=
  (get30DayAverageVolume_wrapped_mean
      (volEngine fun s => if s = "X" then some [1, 2, 3] else none) "X").2
    [1, 2, 3] (by simp [volEngine]) (by simp)

/-- C8 counterexample: with stored samples `[2^63, 2^63]` the `uint64_t`
accumulation wraps to `0`, so the function returns `0` while the exact
`sum / count` is `2^63` — the result is not the exact arithmetic mean. -/
theorem get30DayAverageVolume_overflow_counterexample :
    get30DayAverageVolume (volEngine fun s => if s = "X" then some [2 ^ 63, 2 ^ 63] else none) "X"
      ≠ (2 ^ 63 + 2 ^ 63) / 2 := by
  have h : get30DayAverageVolume
      (volEngine fun s => if s = "X" then some [2 ^ 63, 2 ^ 63] else none) "X" = 0 := by
    simp [get30DayAverageVolume, volEngine, sumWrap]
  rw [h]
  norm_num

/-- C9.  `checkVolumeConstraints` holds exactly when the quantity is at most
the 30-day average volume scaled by the configured threshold (5% in the
constructed engine); with a zero average it rejects every positive quantity
and accepts quantity 0. -/
theorem checkVolumeConstraints_iff_within_threshold (e : PricingEngine)
    (sym : String) (q : ℝ) :
    (checkVolumeConstraints e sym q ↔
       q ≤ (get30DayAverageVolume e sym : ℝ) * e.volume_threshold)
  ∧ (get30DayAverageVolume e sym = 0 →
       (0 < q → ¬ checkVolumeConstraints e sym q)
       ∧ (q = 0 → checkVolumeConstraints e sym q))
  ∧ (initEngine 0).volume_threshold = 0.05 := by
  refine ⟨Iff.rfl, ?_, rfl⟩
  intro h0
  constructor
  · intro hq hc
    rw [checkVolumeConstraints, h0] at hc
    norm_num at hc
    linarith
  · intro hq
    rw [checkVolumeConstraints, h0, hq]
    norm_num

/-- Witness for C9 on an engine with no volume history (zero average). -/
theorem checkVolumeConstraints_iff_within_threshold_witness :
    ¬ checkVolumeConstraints (volEngine fun _ => none) "X" 5
    ∧ checkVolumeConstraints (volEngine fun _ => none) "X" 0 :=
  ⟨((checkVolumeConstraints_iff_within_threshold (volEngine fun _ => none) "X" 5).2.1
      rfl).1 (by norm_num),
   ((checkVolumeConstraints_iff_within_threshold (volEngine fun _ => none) "X" 0).2.1
      rfl).2 rfl⟩

/-- C4 (amended).  With a zero 30-day average `calculateLiquidityScore`
returns `0`; with a nonzero average it returns the claimed weighted sum
`0.4·volumeRatio + 0.3·oiFactor + 0.3·spreadFactor`. -/
theorem calculateLiquidityScore_weighted_formula (d : MarketData) (avg : ℕ) :
    (avg = 0 → calculateLiquidityScore d avg = 0)
  ∧ (avg ≠ 0 → calculateLiquidityScore d avg =
      0.4 * ((d.volume : ℝ) / (avg : ℝ))
        + 0.3 * min 1 ((d.open_interest : ℝ) / 1000000)
        + 0.3 * (1 / (1 + (d.ask - d.bid) / d.price * 100))) := by
  constructor
  · intro h
    simp [calculateLiquidityScore, h]
  · intro h
    simp only [calculateLiquidityScore, if_neg h]
    ring

/-- Witness for C4 on the spec's example quote with average volume 10000. -/
theorem calculateLiquidityScore_weighted_formula_witness :
    calculateLiquidityScore sampleQuote 10000
      = 0.4 * ((5000 : ℝ) / 10000) + 0.3 * min 1 ((500000 : ℝ) / 1000000)
        + 0.3 * (1 / (1 + ((101 : ℝ) - 99) / 100 * 100)) := by
  have h := (calculateLiquidityScore_weighted_formula sampleQuote 10000).2 (by norm_num)
  simpa [sampleQuote] using h

/-- C4 counterexample: with a zero 30-day average the source returns `0`
outright, not the claimed `0.4·0 + 0.3·oiFactor + 0.3·spreadFactor`
(which is `0.25` on this quote). -/
theorem calculateLiquidityScore_zero_average_counterexample :
    calculateLiquidityScore sampleQuote 0
      ≠ 0.4 * 0 + 0.3 * min 1 ((500000 : ℝ) / 1000000)
        + 0.3 * (1 / (1 + ((101 : ℝ) - 99) / 100 * 100)) := by
  have h : calculateLiquidityScore sampleQuote 0 = 0 := by
    simp [calculateLiquidityScore]
  rw [h]
  rw [show min 1 ((500000 : ℝ) / 1000000) = 0.5 by norm_num [min_def]]
  norm_num

/-- The tracked impact-cost expression agrees with the plain one whenever both
divisions are by nonzero denominators. -/
theorem calculateImpactCostTracked_eq (d : MarketData) (q : ℝ)
    (hv : (d.volume : ℝ) ≠ 0) (hp : d.price ≠ 0) :
    calculateImpactCostTracked d q = some (calculateImpactCost d q) := by
  simp only [calculateImpactCostTracked, calculateImpactCost, divTracked,
    if_neg hv, if_neg hp, Option.bind_some, Option.some_bind, Option.pure_def,
    Option.bind_eq_bind]

/-- C5: `calculateImpactCost` divides by `data.volume` with no zero-volume
guard, so at `currentVolume = 0` the computation produces a non-finite IEEE
value (`none` in the tracked model), not a defined non-NaN sentinel. -/
theorem calculateImpactCost_unguarded_at_zero_volume :
    calculateImpactCostTracked
      { symbol := "NIFTY", price := 100, bid := 99, ask := 101, volume := 0,
        open_interest := 0, change := 0, change_percent := 0, exchange := "NSE" } 100
      = none := by
  simp [calculateImpactCostTracked, divTracked]

theorem getMarketData_nse (e : PricingEngine) (s : String) :
    getMarketData e s "NSE" = (e.nse_market_data s).getD (emptyMarketData s "NSE") := by
  rw [getMarketData, if_pos rfl]
  cases e.nse_market_data s <;> rfl

theorem getMarketData_bse (e : PricingEngine) (s : String) :
    getMarketData e s "BSE" = (e.bse_market_data s).getD (emptyMarketData s "BSE") := by
  rw [getMarketData, if_neg (by decide), if_pos rfl]
  cases e.bse_market_data s <;> rfl

/-- C3.  The output of `compareContracts` is sorted by non-decreasing
`|percentage_diff|`: whenever one entry precedes another, the earlier entry's
absolute percentage deviation is at most the later one's. -/
theorem compareContracts_sorted_by_abs_percentage_diff
    (e : PricingEngine) (u : String) (tq : ℝ) :
    (compareContracts e u tq).Pairwise
      (fun a b => |a.percentage_diff| ≤ |b.percentage_diff|) := by
  have h := @List.sorted_mergeSort PriceComparison
    (fun a b => decide (|a.percentage_diff| ≤ |b.percentage_diff|))
    (fun a b c h1 h2 => by
      simp only [decide_eq_true_eq] at h1 h2 ⊢
      exact le_trans h1 h2)
    (fun a b => by
      simp only [Bool.or_eq_true, decide_eq_true_eq]
      exact le_total _ _)
    ((getContracts e u).map fun ct => processContract e ct tq)
  rw [compareContracts]
  exact h.imp fun hab => by simpa using hab

/-- C10.  When the two venues' quotes are exactly equidistant from fair value
the BSE branch is taken and all selected-venue fields come from the BSE quote;
the NSE branch is taken only under a strict inequality of the computed
deviations. -/
theorem processContract_tie_selects_bse (e : PricingEngine)
    (ct : ContractDetails) (tq : ℝ) :
    (|(getMarketData e ct.symbol "NSE").price - calculateFairValue e ct|
        = |(getMarketData e ct.symbol "BSE").price - calculateFairValue e ct| →
      (processContract e ct tq).exchange = "BSE"
      ∧ (processContract e ct tq).percentage_diff
          = ((getMarketData e ct.symbol "BSE").price - calculateFairValue e ct)
            / calculateFairValue e ct * 100
      ∧ (processContract e ct tq).current_volume = (getMarketData e ct.symbol "BSE").volume
      ∧ (processContract e ct tq).open_interest
          = (getMarketData e ct.symbol "BSE").open_interest
      ∧ (processContract e ct tq).liquidity_score
          = calculateLiquidityScore (getMarketData e ct.symbol "BSE")
              (get30DayAverageVolume e ct.symbol)
      ∧ (processContract e ct tq).bid_ask_spread
          = ((getMarketData e ct.symbol "BSE").ask - (getMarketData e ct.symbol "BSE").bid)
            / (getMarketData e ct.symbol "BSE").price * 100
      ∧ (processContract e ct tq).impact_cost
          = calculateImpactCost (getMarketData e ct.symbol "BSE") tq)
  ∧ ((processContract e ct tq).exchange = "NSE" →
      |(getMarketData e ct.symbol "NSE").price - calculateFairValue e ct|
          / calculateFairValue e ct * 100
        < |(getMarketData e ct.symbol "BSE").price - calculateFairValue e ct|
          / calculateFairValue e ct * 100) := by
  constructor
  · intro h
    have hC : ¬ (|(getMarketData e ct.symbol "NSE").price - calculateFairValue e ct|
          / calculateFairValue e ct * 100
        < |(getMarketData e ct.symbol "BSE").price - calculateFairValue e ct|
          / calculateFairValue e ct * 100) := by
      rw [h]
      exact lt_irrefl _
    simp only [processContract, if_neg hC]
    refine ⟨?_, ?_, ?_, ?_, ?_, ?_, ?_⟩ <;> trivial
  · intro hN
    by_contra hlt
    simp only [processContract, if_neg hlt] at hN
    exact absurd hN (by decide)

/-- Witness for C10 on `tieEngine`, where fair value is 102 and the quotes
100 and 104 are exactly equidistant from it. -/
theorem processContract_tie_selects_bse_witness :
    (processContract tieEngine tieContract 1).exchange = "BSE"
    ∧ (processContract tieEngine tieContract 1).percentage_diff
        = ((getMarketData tieEngine tieContract.symbol "BSE").price
            - calculateFairValue tieEngine tieContract)
          / calculateFairValue tieEngine tieContract * 100
    ∧ (processContract tieEngine tieContract 1).current_volume
        = (getMarketData tieEngine tieContract.symbol "BSE").volume
    ∧ (processContract tieEngine tieContract 1).open_interest
        = (getMarketData tieEngine tieContract.symbol "BSE").open_interest
    ∧ (processContract tieEngine tieContract 1).liquidity_score
        = calculateLiquidityScore (getMarketData tieEngine tieContract.symbol "BSE")
            (get30DayAverageVolume tieEngine tieContract.symbol)
    ∧ (processContract tieEngine tieContract 1).bid_ask_spread
        = ((getMarketData tieEngine tieContract.symbol "BSE").ask
            - (getMarketData tieEngine tieContract.symbol "BSE").bid)
          / (getMarketData tieEngine tieContract.symbol "BSE").price * 100
    ∧ (processContract tieEngine tieContract 1).impact_cost
        = calculateImpactCost (getMarketData tieEngine tieContract.symbol "BSE") 1 :=
  (processContract_tie_selects_bse tieEngine tieContract 1).1 (by
    have hN : getMarketData tieEngine tieContract.symbol "NSE" = tieQuote "NSE" 100 := by
      rw [getMarketData_nse]
      simp [tieEngine, tieContract]
    have hB : getMarketData tieEngine tieContract.symbol "BSE" = tieQuote "BSE" 104 := by
      rw [getMarketData_bse]
      simp [tieEngine, tieContract]
    have hfv : calculateFairValue tieEngine tieContract = 102 := by
      rw [calculateFairValue,
        if_pos (show tieContract.instrument_type = "CASH" from rfl)]
      rw [getMarketData_nse, getMarketData_bse]
      simp only [tieEngine, tieContract]
      norm_num [tieQuote]
    rw [hfv, hN, hB]
    show |(100:ℝ) - 102| = |(104:ℝ) - 102|
    rw [show (100:ℝ) - 102 = -2 by norm_num, show (104:ℝ) - 102 = 2 by norm_num, abs_neg])

/-- C2 (amended).  Every entry of a `compareContracts` pass is the
per-contract comparison of some contract of the underlying (the sort is a
permutation of the mapped contracts); and for any contract whose fair value
is positive, the venue whose price is strictly closer to fair value is
selected, with the signed percentage deviation, current volume, open
interest, liquidity score, bid-ask spread and impact cost all computed from
the selected venue's quote. -/
theorem processContract_selects_closer_venue (e : PricingEngine) (u : String)
    (tq : ℝ) :
    (compareContracts e u tq).Perm
      ((getContracts e u).map fun ct => processContract e ct tq)
  ∧ ∀ ct : ContractDetails, 0 < calculateFairValue e ct →
      (|(getMarketData e ct.symbol "NSE").price - calculateFairValue e ct|
          < |(getMarketData e ct.symbol "BSE").price - calculateFairValue e ct| →
        (processContract e ct tq).exchange = "NSE"
        ∧ (processContract e ct tq).percentage_diff
            = ((getMarketData e ct.symbol "NSE").price - calculateFairValue e ct)
              / calculateFairValue e ct * 100
        ∧ (processContract e ct tq).current_volume = (getMarketData e ct.symbol "NSE").volume
        ∧ (processContract e ct tq).open_interest
            = (getMarketData e ct.symbol "NSE").open_interest
        ∧ (processContract e ct tq).liquidity_score
            = calculateLiquidityScore (getMarketData e ct.symbol "NSE")
                (get30DayAverageVolume e ct.symbol)
        ∧ (processContract e ct tq).bid_ask_spread
            = ((getMarketData e ct.symbol "NSE").ask - (getMarketData e ct.symbol "NSE").bid)
              / (getMarketData e ct.symbol "NSE").price * 100
        ∧ (processContract e ct tq).impact_cost
            = calculateImpactCost (getMarketData e ct.symbol "NSE") tq)
      ∧ (|(getMarketData e ct.symbol "BSE").price - calculateFairValue e ct|
          < |(getMarketData e ct.symbol "NSE").price - calculateFairValue e ct| →
        (processContract e ct tq).exchange = "BSE"
        ∧ (processContract e ct tq).percentage_diff
            = ((getMarketData e ct.symbol "BSE").price - calculateFairValue e ct)
              / calculateFairValue e ct * 100
        ∧ (processContract e ct tq).current_volume = (getMarketData e ct.symbol "BSE").volume
        ∧ (processContract e ct tq).open_interest
            = (getMarketData e ct.symbol "BSE").open_interest
        ∧ (processContract e ct tq).liquidity_score
            = calculateLiquidityScore (getMarketData e ct.symbol "BSE")
                (get30DayAverageVolume e ct.symbol)
        ∧ (processContract e ct tq).bid_ask_spread
            = ((getMarketData e ct.symbol "BSE").ask - (getMarketData e ct.symbol "BSE").bid)
              / (getMarketData e ct.symbol "BSE").price * 100
        ∧ (processContract e ct tq).impact_cost
            = calculateImpactCost (getMarketData e ct.symbol "BSE") tq) := by
  constructor
  · rw [compareContracts]
    exact List.mergeSort_perm _ _
  · intro ct hfv
    constructor
    · intro hlt
      have hC : |(getMarketData e ct.symbol "NSE").price - calculateFairValue e ct|
            / calculateFairValue e ct * 100
          < |(getMarketData e ct.symbol "BSE").price - calculateFairValue e ct|
            / calculateFairValue e ct * 100 :=
        (mul_lt_mul_right (by norm_num : (0:ℝ) < 100)).mpr
          ((div_lt_div_iff_of_pos_right hfv).mpr hlt)
      simp only [processContract, if_pos hC]
      refine ⟨?_, ?_, ?_, ?_, ?_, ?_, ?_⟩ <;> trivial
    · intro hlt
      have hC : ¬ (|(getMarketData e ct.symbol "NSE").price - calculateFairValue e ct|
            / calculateFairValue e ct * 100
          < |(getMarketData e ct.symbol "BSE").price - calculateFairValue e ct|
            / calculateFairValue e ct * 100) :=
        not_lt.mpr (le_of_lt ((mul_lt_mul_right (by norm_num : (0:ℝ) < 100)).mpr
          ((div_lt_div_iff_of_pos_right hfv).mpr hlt)))
      simp only [processContract, if_neg hC]
      refine ⟨?_, ?_, ?_, ?_, ?_, ?_, ?_⟩ <;> trivial

/-- Witness for C2 on `closerEngine`, where fair value is 100 and the NSE
quote (100) is strictly closer than the BSE quote (102). -/
theorem processContract_selects_closer_venue_witness :
    (processContract closerEngine closerContract 1).exchange = "NSE"
    ∧ (processContract closerEngine closerContract 1).percentage_diff
        = ((getMarketData closerEngine closerContract.symbol "NSE").price
            - calculateFairValue closerEngine closerContract)
          / calculateFairValue closerEngine closerContract * 100
    ∧ (processContract closerEngine closerContract 1).current_volume
        = (getMarketData closerEngine closerContract.symbol "NSE").volume
    ∧ (processContract closerEngine closerContract 1).open_interest
        = (getMarketData closerEngine closerContract.symbol "NSE").open_interest
    ∧ (processContract closerEngine closerContract 1).liquidity_score
        = calculateLiquidityScore (getMarketData closerEngine closerContract.symbol "NSE")
            (get30DayAverageVolume closerEngine closerContract.symbol)
    ∧ (processContract closerEngine closerContract 1).bid_ask_spread
        = ((getMarketData closerEngine closerContract.symbol "NSE").ask
            - (getMarketData closerEngine closerContract.symbol "NSE").bid)
          / (getMarketData closerEngine closerContract.symbol "NSE").price * 100
    ∧ (processContract closerEngine closerContract 1).impact_cost
        = calculateImpactCost (getMarketData closerEngine closerContract.symbol "NSE") 1 := by
  have hN : getMarketData closerEngine closerContract.symbol "NSE" = closerQuoteNSE := by
    rw [getMarketData_nse]
    simp [closerEngine, closerContract]
  have hB : getMarketData closerEngine closerContract.symbol "BSE" = closerQuoteBSE := by
    rw [getMarketData_bse]
    simp [closerEngine, closerContract]
  have hfv : calculateFairValue closerEngine closerContract = 100 := by
    rw [calculateFairValue,
      if_pos (show closerContract.instrument_type = "CASH" from rfl)]
    rw [getMarketData_nse, getMarketData_bse]
    simp only [closerEngine, closerContract]
    norm_num [closerQuoteNSE, closerQuoteBSE]
  exact ((processContract_selects_closer_venue closerEngine "U" 1).2 closerContract
      (by rw [hfv]; norm_num)).1
    (by rw [hfv, hN, hB]; norm_num [closerQuoteNSE, closerQuoteBSE, abs_pos])

/-- C2 counterexample: on `zeroFvEngine` the fair value is 0, the NSE quote
(5) is strictly closer to fair value than the BSE quote (10), yet the BSE
branch is selected, because both computed deviations divide by the zero fair
value. -/
theorem compareContracts_closer_venue_fails_at_zero_fair_value :
    |(getMarketData zeroFvEngine "ZZ" "NSE").price
        - calculateFairValue zeroFvEngine zeroFvContract|
      < |(getMarketData zeroFvEngine "ZZ" "BSE").price
        - calculateFairValue zeroFvEngine zeroFvContract|
    ∧ (processContract zeroFvEngine zeroFvContract 1).exchange = "BSE" := by
  have hfv : calculateFairValue zeroFvEngine zeroFvContract = 0 := by
    rw [calculateFairValue]
    rw [if_neg (show ¬ zeroFvContract.instrument_type = "CASH" by decide)]
    rw [if_neg (show ¬ zeroFvContract.instrument_type = "FUTURE" by decide)]
    rw [if_neg (show ¬ zeroFvContract.instrument_type = "OPTION" by decide)]
  have hN : getMarketData zeroFvEngine "ZZ" "NSE" = zeroFvQuote "NSE" 5 := by
    rw [getMarketData_nse]
    simp [zeroFvEngine]
  have hB : getMarketData zeroFvEngine "ZZ" "BSE" = zeroFvQuote "BSE" 10 := by
    rw [getMarketData_bse]
    simp [zeroFvEngine]
  constructor
  · rw [hfv, hN, hB]
    norm_num [zeroFvQuote, abs_pos]
  · have hC : ¬ (|(getMarketData zeroFvEngine zeroFvContract.symbol "NSE").price
          - calculateFairValue zeroFvEngine zeroFvContract|
            / calculateFairValue zeroFvEngine zeroFvContract * 100
        < |(getMarketData zeroFvEngine zeroFvContract.symbol "BSE").price
          - calculateFairValue zeroFvEngine zeroFvContract|
            / calculateFairValue zeroFvEngine zeroFvContract * 100) := by
      rw [hfv]
      simp
    simp only [processContract, if_neg hC]

end
